import Mathlib

/-!
Shallow embedding of `grasp/allegro_hand_client.py` (class `AllegroHand`):
a TCP client plus process supervisor for an Allegro Hand controller.

Strings on the wire are modelled as `List Char`; joint angles as `ℚ`
(the exact value of the Python float); the operating system and the remote
server are modelled as explicit environment parameters recording the
outcome of each system call; `self` is an explicit `HandState` record.
-/

namespace AllegroHand

/-- Exceptions raised by the client code itself. -/
inductive PyErr
  | valueError (msg : String)
  | fileNotFound (msg : String)
deriving DecidableEq, Repr

/-- The mutable fields of an `AllegroHand` instance that the claims are
about: `self.socket` and `self.grasp_process`.  A handle is modelled by an
opaque numeric id; `none` is Python `None`. -/
structure HandState where
  socket : Option Nat
  grasp_process : Option Nat
deriving DecidableEq, Repr

/-! ## Number formatting: Python `f"{p:.6f}"`

CPython formats a float by correctly rounding its exact value to six
decimal places, ties to even, then printing sign, integer part, `'.'` and
exactly six fractional digits.  `microMag q` is that rounding of `|q|`,
expressed in micro-units; it is written with bare `Nat` division so that
the kernel can evaluate it (`|q| * 10^6 = a / q.den` with
`a = q.num.natAbs * 10^6`). -/

/-- Round `|q| * 10^6` to the nearest integer, ties to even. -/
def microMag (q : ℚ) : ℕ :=
  let a := q.num.natAbs * 1000000
  let n := a / q.den
  let r := a % q.den
  if 2 * r < q.den then n
  else if q.den < 2 * r then n + 1
  else if n % 2 = 0 then n else n + 1

/-- Decimal digits of `n`, most significant first; `[]` for `0`.  The
fuel argument (any value `≥ n`) makes the recursion structural. -/
def natToDigitsAux : ℕ → ℕ → List Char
  | 0, _ => []
  | _ + 1, 0 => []
  | fuel + 1, n + 1 =>
    natToDigitsAux fuel ((n + 1) / 10) ++ [Nat.digitChar ((n + 1) % 10)]

/-- Decimal rendering of a natural number (`"0"` for zero). -/
def natRepr (n : ℕ) : List Char :=
  if n = 0 then ['0'] else natToDigitsAux n n

/-- The six fractional digits, zero padded, of `f < 10^6`. -/
def fracDigits6 (f : ℕ) : List Char :=
  [Nat.digitChar (f / 100000 % 10), Nat.digitChar (f / 10000 % 10),
   Nat.digitChar (f / 1000 % 10), Nat.digitChar (f / 100 % 10),
   Nat.digitChar (f / 10 % 10), Nat.digitChar (f % 10)]

/-- Python `f"{p:.6f}"`: optional sign, integer part, `'.'`, exactly six
fractional digits. -/
def format6 (q : ℚ) : List Char :=
  (if q.num < 0 then ['-'] else [])
    ++ natRepr (microMag q / 1000000)
    ++ ['.']
    ++ fracDigits6 (microMag q % 1000000)

/-- Python `" ".join(parts)`. -/
def sjoin : List (List Char) → List Char
  | [] => []
  | [x] => x
  | x :: y :: rest => x ++ ' ' :: sjoin (y :: rest)

/-- Line 139: `"SET_JOINTS " + " ".join([f"{p:.6f}" for p in positions]) + "\n"`. -/
def formatCmd (positions : List ℚ) : List Char :=
  ("SET_JOINTS ").toList ++ sjoin (positions.map format6) ++ ['\n']

/-! ## A matcher for the spec's regex `^SET_JOINTS( -?\d+\.\d{6}){16}$`
plus the single `'\n'` terminator.  Deterministic matching coincides with
the regex here because `'.'`, `' '` and `'\n'` are not digits, so the
greedy `\d+` and `\d{6}` never need backtracking. -/

/-- Consume an exact literal token, returning the rest of the input. -/
def stripToken : List Char → List Char → Option (List Char)
  | [], s => some s
  | _ :: _, [] => none
  | c :: cs, d :: ds => if c = d then stripToken cs ds else none

/-- Consume `\d+\.\d{6}`: one or more digits, a dot, exactly six digits. -/
def matchDigitsDot (s1 : List Char) : Option (List Char) :=
  let ds := s1.takeWhile Char.isDigit
  let r := s1.dropWhile Char.isDigit
  if ds = [] then none
  else match r with
    | c :: r2 =>
      if c = '.' then
        if (r2.take 6).length = 6 ∧ (r2.take 6).all Char.isDigit then
          some (r2.drop 6)
        else none
      else none
    | [] => none

/-- Consume `-?\d+\.\d{6}`: optional minus, then `matchDigitsDot`. -/
def matchVal (s : List Char) : Option (List Char) :=
  match s with
  | c :: t => if c = '-' then matchDigitsDot t else matchDigitsDot s
  | [] => matchDigitsDot s

/-- Consume `n` repetitions of `( -?\d+\.\d{6})` (each begins with a space). -/
def matchGroups : ℕ → List Char → Option (List Char)
  | 0, s => some s
  | n + 1, s =>
    match s with
    | c :: t =>
      if c = ' ' then
        match matchVal t with
        | some r => matchGroups n r
        | none => none
      else none
    | [] => none

/-- Whole-line match of `^SET_JOINTS( -?\d+\.\d{6}){16}$` followed by one
newline character. -/
def matchesSetJoints (s : List Char) : Bool :=
  match stripToken (("SET_JOINTS").toList) s with
  | none => false
  | some r =>
    match matchGroups 16 r with
    | none => false
    | some r2 => r2 = ['\n']

example : matchesSetJoints (formatCmd (List.replicate 16 (0 : ℚ))) = true := by decide

example : format6 ⟨-1, 2, by decide, by decide⟩ = ("-0.500000").toList := by decide

example : format6 ⟨5, 2, by decide, by decide⟩ = ("2.500000").toList := by decide

example : format6 ⟨3, 2, by decide, by decide⟩ = ("1.500000").toList := by decide

/-! ## `set_joint_positions` (lines 124-147)

The remote side of the one send / one receive exchange is an environment
value: either the `send` raises, or the `send` succeeds and the `recv`
raises, or a reply decodes to the string `s`. -/

/-- Outcome of the socket send/recv pair, chosen by the environment. -/
inductive SendRecv
  | sendErr (e : String)
  | recvErr (e : String)
  | reply (s : List Char)
deriving DecidableEq, Repr

/-- Python `str.strip()`: drop leading and trailing whitespace. -/
def pyStrip (s : List Char) : List Char :=
  (((s.dropWhile Char.isWhitespace).reverse).dropWhile Char.isWhitespace).reverse

/-- Result of one `set_joint_positions` call: the exception-or-return
value, the instance state afterwards, the byte strings written to the
socket, and the console messages printed. -/
structure SJPOut where
  result : Except PyErr Bool
  state : HandState
  sent : List (List Char)
  printed : List String
deriving Repr

/-- Lines 124-147, verbatim control flow:
length check (raise `ValueError`), falsy-socket check (print and return
`False`), then format, send, recv, compare the stripped response with
`"OK"`; any exception from send/recv is caught, printed, and turned into
`False`. -/
def set_joint_positions (st : HandState) (env : SendRecv) (positions : List ℚ) :
    SJPOut :=
  if positions.length ≠ 16 then
    ⟨.error (.valueError ("Must provide exactly 16 joint positions")), st, [], []⟩
  else if st.socket = none then
    ⟨.ok false, st, [], ["Not connected to server"]⟩
  else
    let cmd := formatCmd positions
    match env with
    | .sendErr e => ⟨.ok false, st, [], ["Failed to send joint positions: " ++ e]⟩
    | .recvErr e => ⟨.ok false, st, [cmd], ["Failed to send joint positions: " ++ e]⟩
    | .reply s => ⟨.ok (pyStrip s = ("OK").toList), st, [cmd], []⟩

/-! ## `cleanup` (lines 72-102) and its process-stopping half -/

/-- A signal delivered by `os.killpg` to the child's process group. -/
inductive Sig
  | sigterm
  | sigkill
deriving DecidableEq, Repr

/-- Outcome of one `os.getpgid`/`os.killpg` call, chosen by the
environment: delivered, raised `ProcessLookupError`, or raised some other
exception. -/
inductive KillpgOutcome
  | ok
  | raisesLookup
  | raisesOther (msg : String)
deriving DecidableEq, Repr

/-- Environment for the process-stopping half of `cleanup`: what `poll()`
returns before anything is sent, how the SIGTERM `killpg` goes, whether
`wait(timeout=2)` returns before the grace period expires, what `poll()`
returns after a timeout, and how the SIGKILL `killpg` goes. -/
structure StopEnv where
  initialPoll : Option Int
  termCall : KillpgOutcome
  waitExits : Bool
  secondPoll : Option Int
  killCall : KillpgOutcome
deriving DecidableEq, Repr

/-- What the process-stopping half did: signals actually delivered to the
process group, and the warning printed, if any.  There is no exception
channel: every branch of lines 83-102 catches. -/
structure StopResult where
  signals : List Sig
  warning : Option String
deriving DecidableEq, Repr

/-- Lines 85-100: `if poll() is None: killpg(SIGTERM); try wait(2) except
TimeoutExpired: if poll() is None: killpg(SIGKILL)`, wrapped in
`except ProcessLookupError: pass` and `except Exception: print warning`. -/
def stopGrasp (e : StopEnv) : StopResult :=
  match e.initialPoll with
  | some _ => ⟨[], none⟩
  | none =>
    match e.termCall with
    | .raisesLookup => ⟨[], none⟩
    | .raisesOther m => ⟨[], some ("Warning during cleanup: " ++ m)⟩
    | .ok =>
      if e.waitExits then ⟨[Sig.sigterm], none⟩
      else
        match e.secondPoll with
        | some _ => ⟨[Sig.sigterm], none⟩
        | none =>
          match e.killCall with
          | .ok => ⟨[Sig.sigterm, Sig.sigkill], none⟩
          | .raisesLookup => ⟨[Sig.sigterm], none⟩
          | .raisesOther m => ⟨[Sig.sigterm], some ("Warning during cleanup: " ++ m)⟩

/-- Environment for a whole `cleanup` call: whether the best-effort
`socket.send("QUIT\n")` succeeds (its exception is swallowed either way),
and the stop environment for the child process. -/
structure CleanupEnv where
  quitOk : Bool
  stopEnv : StopEnv
deriving DecidableEq, Repr

/-- What one `cleanup` call did. -/
structure CleanupOut where
  state : HandState
  quitSent : Bool
  closedSocket : Bool
  signals : List Sig
  warning : Option String
deriving DecidableEq, Repr

/-- Lines 72-102: if the socket is set, best-effort `QUIT` then `close()`
(which sets `self.socket = None`); if the process handle is set, run the
stop sequence and finally set `self.grasp_process = None`. -/
def cleanup (st : HandState) (env : CleanupEnv) : CleanupOut :=
  let sockPart : Option Nat × Bool × Bool :=
    match st.socket with
    | some _ => (none, env.quitOk, true)
    | none => (none, false, false)
  let procPart : Option Nat × List Sig × Option String :=
    match st.grasp_process with
    | some _ =>
      let r := stopGrasp env.stopEnv
      (none, r.signals, r.warning)
    | none => (none, [], none)
  ⟨⟨sockPart.1, procPart.1⟩, sockPart.2.1, sockPart.2.2, procPart.2.1, procPart.2.2⟩

/-! ## `connect` (lines 104-122) -/

/-- Result of `connect`: either a successful return, or `sys.exit(code)`
after `self.cleanup()`.  Both record how many TCP attempts were made and
the list of sleep durations executed between attempts. -/
inductive ConnectRes
  | connected (attemptsMade : Nat) (sleeps : List Nat)
  | exited (attemptsMade : Nat) (sleeps : List Nat) (cleanedUp : Bool) (code : Nat)
deriving DecidableEq, Repr

/-- Line 106. -/
def max_attempts : ℕ := 5

/-- The `while attempt < max_attempts` loop, with `outcome i` telling
whether the `i`-th `socket.connect` succeeds.  On failure: `attempt += 1`;
below the bound sleep 1 second and loop, at the bound print, `cleanup()`
and `sys.exit(1)`. -/
def connectLoop (outcome : ℕ → Bool) (attempt : ℕ) (sleeps : List Nat)
    (fuel : ℕ) : ConnectRes :=
  match fuel with
  | 0 => .exited attempt sleeps true 1
  | fuel + 1 =>
    if attempt < max_attempts then
      if outcome attempt then .connected (attempt + 1) sleeps
      else
        if attempt + 1 < max_attempts then
          connectLoop outcome (attempt + 1) (sleeps ++ [1]) fuel
        else .exited (attempt + 1) sleeps true 1
    else .exited attempt sleeps true 1

/-- Lines 104-122: `attempt` starts at 0; fuel `max_attempts` covers the
whole loop. -/
def connect (outcome : ℕ → Bool) : ConnectRes :=
  connectLoop outcome 0 [] max_attempts

/-- Attempts made, for either way out of the loop. -/
def ConnectRes.attempts : ConnectRes → ℕ
  | .connected a _ => a
  | .exited a _ _ _ => a

/-- Sleeps executed, for either way out of the loop. -/
def ConnectRes.sleepList : ConnectRes → List Nat
  | .connected _ s => s
  | .exited _ s _ _ => s

/-! ## Executable resolution (lines 27-42) and `__init__` (lines 13-54) -/

/-- The probed candidate list of line 29, `dir` standing for
`os.path.dirname(__file__)`. -/
def candidatePaths (dir : String) : List String :=
  ["./grasp", "../build/grasp/grasp", "grasp/grasp", dir ++ "/grasp"]

/-- The `for path in possible_paths: if os.path.exists(path): ... break`
loop of lines 35-38. -/
def findFirstExisting (pathExists : String → Bool) : List String → Option String
  | [] => none
  | p :: ps => if pathExists p then some p else findFirstExisting pathExists ps

/-- Lines 27-42: no explicit path probes the candidates and raises
`FileNotFoundError` when none exists; either way the chosen path goes
through `os.path.abspath`. -/
def resolveGrasp (explicitPath : Option String) (pathExists : String → Bool)
    (abspath : String → String) (dir : String) : Except PyErr String :=
  match explicitPath with
  | some p => .ok (abspath p)
  | none =>
    match findFirstExisting pathExists (candidatePaths dir) with
    | some p => .ok (abspath p)
    | none => .error (.fileNotFound ("Could not find grasp executable. Please specify path."))

/-- How `__init__` ends: an exception propagates, `sys.exit(code)` fires
(spawn failure, or connection retries exhausted), or the instance is
ready. -/
inductive InitRes
  | raised (e : PyErr)
  | exitedProg (code : Nat)
  | ready (st : HandState)
deriving DecidableEq, Repr

/-- Result of `__init__`, recording whether `start_grasp` attempted a
spawn. -/
structure InitOut where
  res : InitRes
  spawnAttempted : Bool
deriving DecidableEq, Repr

/-- Lines 13-54: resolve the executable (raising `FileNotFoundError` if
that fails), `start_grasp` (spawn; on failure print and `sys.exit(1)`),
sleep 2, then `connect` with its retry loop.  Every path that reaches a
ready state has spawned the child and connected the socket. -/
def initHand (grasp_path : Option String) (pathExists : String → Bool)
    (abspath : String → String) (dir : String) (spawnOk : Bool)
    (outcome : ℕ → Bool) : InitOut :=
  match resolveGrasp grasp_path pathExists abspath dir with
  | .error e => ⟨.raised e, false⟩
  | .ok _ =>
    if spawnOk then
      match connect outcome with
      | .connected _ _ => ⟨.ready ⟨some 0, some 0⟩, true⟩
      | .exited _ _ _ code => ⟨.exitedProg code, true⟩
    else ⟨.exitedProg 1, true⟩

/-! ## Helper lemmas on digits and matching -/

theorem digitChar_isDigit (d : ℕ) (h : d < 10) : (Nat.digitChar d).isDigit = true := by
  interval_cases d <;> decide

theorem natToDigitsAux_digits (fuel n : ℕ) :
    ∀ c ∈ natToDigitsAux fuel n, c.isDigit = true := by
  induction fuel generalizing n with
  | zero => intro c hc; simp [natToDigitsAux] at hc
  | succ f ih =>
    intro c hc
    match n with
    | 0 => simp [natToDigitsAux] at hc
    | m + 1 =>
      rw [natToDigitsAux] at hc
      rcases List.mem_append.mp hc with h1 | h1
      · exact ih _ c h1
      · rcases List.mem_singleton.mp h1 with rfl
        exact digitChar_isDigit _ (Nat.mod_lt _ (by norm_num))

theorem natToDigitsAux_ne_nil (fuel n : ℕ) (hf : fuel ≠ 0) (hn : n ≠ 0) :
    natToDigitsAux fuel n ≠ [] := by
  match fuel, n with
  | 0, _ => exact absurd rfl hf
  | f + 1, 0 => exact absurd rfl hn
  | f + 1, m + 1 => simp [natToDigitsAux]

theorem natRepr_digits (n : ℕ) : ∀ c ∈ natRepr n, c.isDigit = true := by
  intro c hc
  by_cases h : n = 0
  · subst h; simp [natRepr] at hc; subst hc; decide
  · rw [natRepr, if_neg h] at hc
    exact natToDigitsAux_digits n n c hc

theorem natRepr_ne_nil (n : ℕ) : natRepr n ≠ [] := by
  by_cases h : n = 0
  · subst h; simp [natRepr]
  · rw [natRepr, if_neg h]
    exact natToDigitsAux_ne_nil n n h h

theorem fracDigits6_length (f : ℕ) : (fracDigits6 f).length = 6 := rfl

theorem fracDigits6_digits (f : ℕ) : ∀ c ∈ fracDigits6 f, c.isDigit = true := by
  intro c hc
  simp only [fracDigits6, List.mem_cons, List.not_mem_nil, or_false] at hc
  rcases hc with rfl | rfl | rfl | rfl | rfl | rfl <;>
    exact digitChar_isDigit _ (Nat.mod_lt _ (by norm_num))

theorem takeWhile_all_append (p : Char → Bool) (xs ys : List Char)
    (h : ∀ x ∈ xs, p x = true) :
    (xs ++ ys).takeWhile p = xs ++ ys.takeWhile p ∧
      (xs ++ ys).dropWhile p = ys.dropWhile p := by
  induction xs with
  | nil => simp
  | cons a l ih =>
    have ha : p a = true := h a (List.mem_cons_self a l)
    have hl : ∀ x ∈ l, p x = true := fun x hx => h x (List.mem_cons_of_mem a hx)
    rcases ih hl with ⟨h1, h2⟩
    simp [List.takeWhile_cons, List.dropWhile_cons, ha, h1, h2]

theorem stripToken_self (p s : List Char) : stripToken p (p ++ s) = some s := by
  induction p with
  | nil => rfl
  | cons c cs ih => simp [stripToken, ih]

theorem matchDigitsDot_eat (ds frac rest : List Char)
    (h1 : ds ≠ []) (h2 : ∀ c ∈ ds, c.isDigit = true)
    (h3 : frac.length = 6) (h4 : ∀ c ∈ frac, c.isDigit = true) :
    matchDigitsDot (ds ++ '.' :: (frac ++ rest)) = some rest := by
  have hstop : ('.' :: (frac ++ rest)).takeWhile Char.isDigit = [] := by
    simp [List.takeWhile_cons]
  have hstop2 : ('.' :: (frac ++ rest)).dropWhile Char.isDigit =
      '.' :: (frac ++ rest) := by
    simp [List.dropWhile_cons]
  rcases takeWhile_all_append Char.isDigit ds ('.' :: (frac ++ rest)) h2 with ⟨ht, hw⟩
  rw [hstop, List.append_nil] at ht
  rw [hstop2] at hw
  have htake : (frac ++ rest).take 6 = frac := by
    rw [← h3]; exact List.take_left frac rest
  have hdrop : (frac ++ rest).drop 6 = rest := by
    rw [← h3]; exact List.drop_left frac rest
  simp only [matchDigitsDot, ht, hw]
  rw [if_neg h1]
  simp [htake, h3, List.all_eq_true.mpr h4, hdrop]

theorem matchVal_eat (ds frac rest : List Char)
    (h1 : ds ≠ []) (h2 : ∀ c ∈ ds, c.isDigit = true)
    (h3 : frac.length = 6) (h4 : ∀ c ∈ frac, c.isDigit = true) :
    matchVal (ds ++ '.' :: (frac ++ rest)) = some rest ∧
      matchVal ('-' :: (ds ++ '.' :: (frac ++ rest))) = some rest := by
  have hcore := matchDigitsDot_eat ds frac rest h1 h2 h3 h4
  obtain ⟨d, ds2, rfl⟩ := List.exists_cons_of_ne_nil h1
  have hd : d.isDigit = true := h2 d (List.mem_cons_self d ds2)
  have hdm : ¬ d = '-' := by
    intro h; rw [h] at hd; simp at hd
  constructor
  · show matchVal (d :: (ds2 ++ '.' :: (frac ++ rest))) = some rest
    rw [matchVal, if_neg hdm]
    exact hcore
  · rw [matchVal, if_pos rfl]
    exact hcore

theorem matchVal_format6 (q : ℚ) (rest : List Char) :
    matchVal (format6 q ++ rest) = some rest := by
  have h1 := natRepr_ne_nil (microMag q / 1000000)
  have h2 := natRepr_digits (microMag q / 1000000)
  have h3 := fracDigits6_length (microMag q % 1000000)
  have h4 := fracDigits6_digits (microMag q % 1000000)
  rcases matchVal_eat (natRepr (microMag q / 1000000))
    (fracDigits6 (microMag q % 1000000)) rest h1 h2 h3 h4 with ⟨hplain, hminus⟩
  by_cases hneg : q.num < 0
  · rw [format6, if_pos hneg]
    simpa [List.append_assoc] using hminus
  · rw [format6, if_neg hneg]
    simpa [List.append_assoc] using hplain

theorem matchGroups_flatten (ps : List ℚ) (rest : List Char) :
    matchGroups ps.length
      ((ps.map (fun q => ' ' :: format6 q)).flatten ++ rest) = some rest := by
  induction ps generalizing rest with
  | nil => simp [matchGroups]
  | cons q ps ih =>
    have : ((q :: ps).map (fun q => ' ' :: format6 q)).flatten ++ rest =
        ' ' :: (format6 q ++ (((ps.map (fun q => ' ' :: format6 q)).flatten) ++ rest)) := by
      simp [List.append_assoc]
    rw [this]
    simp only [List.length_cons, matchGroups, if_pos rfl, matchVal_format6]
    exact ih rest

theorem sjoin_cons_space (ts : List (List Char)) (h : ts ≠ []) :
    ' ' :: sjoin ts = (ts.map (fun t => ' ' :: t)).flatten := by
  induction ts with
  | nil => exact absurd rfl h
  | cons x rest ih =>
    match rest with
    | [] => simp [sjoin]
    | y :: r =>
      have ih2 := ih (by simp)
      rw [sjoin, List.map_cons, List.flatten_cons, ← ih2]
      simp

/-- `formatCmd` decomposed into the regex-friendly shape, for nonempty
vectors. -/
theorem formatCmd_decompose (ps : List ℚ) (h : ps ≠ []) :
    formatCmd ps = (("SET_JOINTS").toList) ++
      ((ps.map (fun q => ' ' :: format6 q)).flatten ++ ['\n']) := by
  have hm : ps.map format6 ≠ [] := by
    simpa using h
  have key : ' ' :: sjoin (ps.map format6) =
      (ps.map (fun q => ' ' :: format6 q)).flatten := by
    have hj := sjoin_cons_space (ps.map format6) hm
    rw [List.map_map] at hj
    simpa [Function.comp] using hj
  have hhead : ("SET_JOINTS ").toList = (("SET_JOINTS").toList) ++ [' '] := by decide
  rw [formatCmd, hhead, List.append_assoc, List.append_assoc]
  congr 1
  rw [← key]
  simp

/-! ## The claims -/

/-- C1: over a connected channel and a 16-element vector,
`set_joint_positions` returns `True` iff the stripped response equals the
literal `"OK"`, and any transport error raised during the send or the
receive is caught and turned into a `False` return instead of an
exception. -/
theorem set_joint_positions_ack_iff (st : HandState) (env : SendRecv)
    (ps : List ℚ) (hs : st.socket.isSome) (hl : ps.length = 16) :
    ((set_joint_positions st env ps).result = Except.ok true ↔
      ∃ s, env = SendRecv.reply s ∧ pyStrip s = ("OK").toList)
    ∧ (∀ e, env = SendRecv.sendErr e →
        (set_joint_positions st env ps).result = Except.ok false)
    ∧ (∀ e, env = SendRecv.recvErr e →
        (set_joint_positions st env ps).result = Except.ok false) := by
  obtain ⟨k, hk⟩ := Option.isSome_iff_exists.mp hs
  cases env <;>
    simp [set_joint_positions, hl, hk]

/-- Witness for C1: with a connected socket, the zero vector and the
server reply `"OK\n"`, the call returns `True`. -/
theorem set_joint_positions_ack_iff_witness :
    (set_joint_positions ⟨some 0, none⟩ (SendRecv.reply (("OK\n").toList))
      (List.replicate 16 0)).result = Except.ok true :=
  (set_joint_positions_ack_iff ⟨some 0, none⟩ _ _ (by decide) (by decide)).1.mpr
    ⟨("OK\n").toList, rfl, by decide⟩

/-- C2: the command line sent for any 16-element vector matches
`^SET_JOINTS( -?\d+\.\d{6}){16}$` followed by a single newline. -/
theorem set_joint_positions_wire_format (ps : List ℚ) (hl : ps.length = 16) :
    matchesSetJoints (formatCmd ps) = true := by
  have hne : ps ≠ [] := by
    intro h; rw [h] at hl; simp at hl
  rw [formatCmd_decompose ps hne]
  simp only [matchesSetJoints, stripToken_self]
  rw [show (16 : ℕ) = ps.length from hl.symm, matchGroups_flatten]
  simp

/-- Witness for C2: the zero vector's command line matches the regex. -/
theorem set_joint_positions_wire_format_witness :
    matchesSetJoints (formatCmd (List.replicate 16 0)) = true :=
  set_joint_positions_wire_format (List.replicate 16 0) (by decide)

/-- C3: a vector whose length is not 16 makes `set_joint_positions` raise
`ValueError` with no network I/O, no console output and no state change. -/
theorem set_joint_positions_invalid_length (st : HandState) (env : SendRecv)
    (ps : List ℚ) (hl : ps.length ≠ 16) :
    set_joint_positions st env ps =
      ⟨.error (.valueError ("Must provide exactly 16 joint positions")), st, [], []⟩ := by
  simp [set_joint_positions, hl]

/-- Witness for C3: the empty vector raises `ValueError` and sends
nothing. -/
theorem set_joint_positions_invalid_length_witness :
    set_joint_positions ⟨some 0, none⟩ (SendRecv.reply []) [] =
      ⟨.error (.valueError ("Must provide exactly 16 joint positions")),
        ⟨some 0, none⟩, [], []⟩ :=
  set_joint_positions_invalid_length ⟨some 0, none⟩ (SendRecv.reply []) [] (by decide)

/-- C9: length validation precedes the connectivity check: a wrong-length
vector raises `ValueError` even with no socket, and the not-connected
outcome (print plus `False` return, nothing sent) happens exactly on
16-element vectors with no socket. -/
theorem set_joint_positions_validation_precedence (st : HandState)
    (env : SendRecv) (ps : List ℚ) :
    (ps.length ≠ 16 →
      (set_joint_positions st env ps).result =
        Except.error (PyErr.valueError ("Must provide exactly 16 joint positions")))
    ∧ (st.socket = none → ps.length = 16 →
        set_joint_positions st env ps =
          ⟨.ok false, st, [], ["Not connected to server"]⟩) := by
  constructor
  · intro hl
    simp [set_joint_positions, hl]
  · intro hsock hl
    simp [set_joint_positions, hl, hsock]

/-- Witness for C9: with no socket, a 3-element vector still raises
`ValueError`, and the 16-element zero vector gets the not-connected
`False`. -/
theorem set_joint_positions_validation_precedence_witness :
    (set_joint_positions ⟨none, none⟩ (SendRecv.reply []) (List.replicate 3 0)).result =
      Except.error (PyErr.valueError ("Must provide exactly 16 joint positions"))
    ∧ set_joint_positions ⟨none, none⟩ (SendRecv.reply []) (List.replicate 16 0) =
      ⟨.ok false, ⟨none, none⟩, [], ["Not connected to server"]⟩ :=
  ⟨(set_joint_positions_validation_precedence ⟨none, none⟩ (SendRecv.reply [])
      (List.replicate 3 0)).1 (by decide),
    (set_joint_positions_validation_precedence ⟨none, none⟩ (SendRecv.reply [])
      (List.replicate 16 0)).2 rfl (by decide)⟩

/-- C10: `set_joint_positions` never mutates the instance: the socket
field and the process field after the call are the ones from before, in
every outcome. -/
theorem set_joint_positions_frame (st : HandState) (env : SendRecv)
    (ps : List ℚ) : (set_joint_positions st env ps).state = st := by
  rcases st with ⟨s, p⟩
  cases env <;> by_cases hl : ps.length = 16 <;> cases s <;>
    simp [set_joint_positions, hl]

/-- C5: `cleanup` is idempotent.  `cleanup` is a total function here
because every exception in lines 72-102 is caught; after one call both
handles are `None`, so a second call — under any environment — sends no
`QUIT` bytes, closes nothing, delivers no signal, prints no warning, and
leaves the state unchanged. -/
theorem cleanup_idempotent (st : HandState) (env1 env2 : CleanupEnv) :
    cleanup (cleanup st env1).state env2 =
      ⟨(cleanup st env1).state, false, false, [], none⟩ := by
  rcases st with ⟨s, p⟩
  cases s <;> cases p <;> rfl

/-- C6: the stop sequence of `cleanup` (lines 83-102) is graceful then
forced: an already-exited child gets no signal; otherwise SIGTERM goes to
the process group, and SIGKILL follows only when the child is still alive
after the 2-second grace period; `ProcessLookupError` is swallowed
silently and any other exception only produces a warning — `stopGrasp` is
a total function, so stopping never raises. -/
theorem stopGrasp_graceful_then_forced (e : StopEnv) :
    ((∃ c, e.initialPoll = some c) → stopGrasp e = ⟨[], none⟩)
    ∧ (e.initialPoll = none → e.termCall = KillpgOutcome.ok →
        e.waitExits = true → stopGrasp e = ⟨[Sig.sigterm], none⟩)
    ∧ (e.initialPoll = none → e.termCall = KillpgOutcome.ok →
        e.waitExits = false → (∃ c, e.secondPoll = some c) →
        stopGrasp e = ⟨[Sig.sigterm], none⟩)
    ∧ (e.initialPoll = none → e.termCall = KillpgOutcome.ok →
        e.waitExits = false → e.secondPoll = none →
        e.killCall = KillpgOutcome.ok →
        stopGrasp e = ⟨[Sig.sigterm, Sig.sigkill], none⟩)
    ∧ (e.initialPoll = none → e.termCall = KillpgOutcome.raisesLookup →
        stopGrasp e = ⟨[], none⟩)
    ∧ (e.initialPoll = none → e.termCall = KillpgOutcome.ok →
        e.waitExits = false → e.secondPoll = none →
        e.killCall = KillpgOutcome.raisesLookup →
        stopGrasp e = ⟨[Sig.sigterm], none⟩)
    ∧ (∀ m, e.initialPoll = none → e.termCall = KillpgOutcome.raisesOther m →
        (stopGrasp e).warning = some ("Warning during cleanup: " ++ m))
    ∧ (∀ m, e.initialPoll = none → e.termCall = KillpgOutcome.ok →
        e.waitExits = false → e.secondPoll = none →
        e.killCall = KillpgOutcome.raisesOther m →
        (stopGrasp e).warning = some ("Warning during cleanup: " ++ m)) := by
  rcases e with ⟨ip, tc, we, sp, kc⟩
  refine ⟨?_, ?_, ?_, ?_, ?_, ?_, ?_, ?_⟩ <;>
    · first
      | (rintro ⟨c, rfl⟩; rfl)
      | (intro h1 h2 h3 ⟨c, h4⟩
         subst h1; subst h2; subst h3; subst h4; rfl)
      | (intros; subst_vars; rfl)

/-- Witness for C6: an already-exited child gets no signal, and a child
that survives the grace period gets SIGTERM then SIGKILL. -/
theorem stopGrasp_graceful_then_forced_witness :
    stopGrasp ⟨some 0, KillpgOutcome.ok, true, none, KillpgOutcome.ok⟩ = ⟨[], none⟩
    ∧ stopGrasp ⟨none, KillpgOutcome.ok, false, none, KillpgOutcome.ok⟩ =
      ⟨[Sig.sigterm, Sig.sigkill], none⟩ :=
  ⟨(stopGrasp_graceful_then_forced
      ⟨some 0, KillpgOutcome.ok, true, none, KillpgOutcome.ok⟩).1 ⟨0, rfl⟩,
    (stopGrasp_graceful_then_forced
      ⟨none, KillpgOutcome.ok, false, none, KillpgOutcome.ok⟩).2.2.2.1
      rfl rfl rfl rfl rfl⟩

/-- C7: executable resolution (lines 27-42): an explicit path skips
probing entirely (the result never consults the filesystem) and is passed
through `os.path.abspath`; otherwise the four candidates are probed in the
fixed order of line 29 and the first existing one wins; when none exists,
`FileNotFoundError` is raised. -/
theorem resolveGrasp_resolution_order (pathExists : String → Bool)
    (abspath : String → String) (dir : String) :
    (∀ p, resolveGrasp (some p) pathExists abspath dir = .ok (abspath p))
    ∧ (pathExists ("./grasp") = true →
        resolveGrasp none pathExists abspath dir = .ok (abspath ("./grasp")))
    ∧ (pathExists ("./grasp") = false →
        pathExists ("../build/grasp/grasp") = true →
        resolveGrasp none pathExists abspath dir =
          .ok (abspath ("../build/grasp/grasp")))
    ∧ (pathExists ("./grasp") = false →
        pathExists ("../build/grasp/grasp") = false →
        pathExists ("grasp/grasp") = true →
        resolveGrasp none pathExists abspath dir = .ok (abspath ("grasp/grasp")))
    ∧ (pathExists ("./grasp") = false →
        pathExists ("../build/grasp/grasp") = false →
        pathExists ("grasp/grasp") = false →
        pathExists (dir ++ "/grasp") = true →
        resolveGrasp none pathExists abspath dir = .ok (abspath (dir ++ "/grasp")))
    ∧ (pathExists ("./grasp") = false →
        pathExists ("../build/grasp/grasp") = false →
        pathExists ("grasp/grasp") = false →
        pathExists (dir ++ "/grasp") = false →
        resolveGrasp none pathExists abspath dir =
          .error (.fileNotFound ("Could not find grasp executable. Please specify path."))) := by
  refine ⟨fun p => rfl, ?_, ?_, ?_, ?_, ?_⟩ <;>
    · intros
      simp_all [resolveGrasp, candidatePaths, findFirstExisting]

/-- Witness for C7: an explicit path is used as given, and with an empty
filesystem the probe raises `FileNotFoundError`. -/
theorem resolveGrasp_resolution_order_witness :
    resolveGrasp (some ("/x/grasp")) (fun _ => false) (fun s => s) ("/d") =
      .ok ("/x/grasp")
    ∧ resolveGrasp none (fun _ => false) (fun s => s) ("/d") =
      .error (.fileNotFound ("Could not find grasp executable. Please specify path.")) :=
  ⟨(resolveGrasp_resolution_order (fun _ => false) (fun s => s) ("/d")).1 ("/x/grasp"),
    (resolveGrasp_resolution_order (fun _ => false) (fun s => s) ("/d")).2.2.2.2.2
      rfl rfl rfl rfl⟩

/-- C4: `connect` makes at most `max_attempts = 5` TCP attempts, sleeps a
fixed 1 second between consecutive attempts (no backoff growth), returns
at the first success, and on exhausting all attempts runs `cleanup()` and
`sys.exit(1)` — a non-zero exit instead of a return. -/
theorem connect_retry_policy (outcome : ℕ → Bool) :
    ((connect outcome).attempts ≤ max_attempts)
    ∧ (∀ d ∈ (connect outcome).sleepList, d = 1)
    ∧ (∀ i, i < max_attempts → outcome i = true →
        (∀ j, j < i → outcome j = false) →
        connect outcome = ConnectRes.connected (i + 1) (List.replicate i 1))
    ∧ ((∀ j, j < max_attempts → outcome j = false) →
        connect outcome = ConnectRes.exited max_attempts (List.replicate 4 1) true 1) := by
  refine ⟨?_, ?_, ?_, ?_⟩
  · by_cases h0 : outcome 0 = true <;> by_cases h1 : outcome 1 = true <;>
      by_cases h2 : outcome 2 = true <;> by_cases h3 : outcome 3 = true <;>
      by_cases h4 : outcome 4 = true <;>
      simp_all [connect, connectLoop, max_attempts, ConnectRes.attempts]
  · by_cases h0 : outcome 0 = true <;> by_cases h1 : outcome 1 = true <;>
      by_cases h2 : outcome 2 = true <;> by_cases h3 : outcome 3 = true <;>
      by_cases h4 : outcome 4 = true <;>
      simp_all [connect, connectLoop, max_attempts, ConnectRes.sleepList]
  · intro i hi hsucc hmin
    rw [show max_attempts = 5 from rfl] at hi
    interval_cases i
    · simp [connect, connectLoop, max_attempts, hsucc]
    · have h0 := hmin 0 (by norm_num)
      simp [connect, connectLoop, max_attempts, h0, hsucc, List.replicate]
    · have h0 := hmin 0 (by norm_num)
      have h1 := hmin 1 (by norm_num)
      simp [connect, connectLoop, max_attempts, h0, h1, hsucc, List.replicate]
    · have h0 := hmin 0 (by norm_num)
      have h1 := hmin 1 (by norm_num)
      have h2 := hmin 2 (by norm_num)
      simp [connect, connectLoop, max_attempts, h0, h1, h2, hsucc, List.replicate]
    · have h0 := hmin 0 (by norm_num)
      have h1 := hmin 1 (by norm_num)
      have h2 := hmin 2 (by norm_num)
      have h3 := hmin 3 (by norm_num)
      simp [connect, connectLoop, max_attempts, h0, h1, h2, h3, hsucc,
        List.replicate]
  · intro hall
    have h0 := hall 0 (by norm_num [max_attempts])
    have h1 := hall 1 (by norm_num [max_attempts])
    have h2 := hall 2 (by norm_num [max_attempts])
    have h3 := hall 3 (by norm_num [max_attempts])
    have h4 := hall 4 (by norm_num [max_attempts])
    simp [connect, connectLoop, max_attempts, h0, h1, h2, h3, h4, List.replicate]

/-- Witness for C4: a server that accepts only the third attempt yields a
connected result after 3 attempts and 2 unit sleeps. -/
theorem connect_retry_policy_witness :
    connect (fun i => decide (i = 2)) =
      ConnectRes.connected 3 (List.replicate 2 1) :=
  (connect_retry_policy (fun i => decide (i = 2))).2.2.1 2
    (by norm_num [max_attempts]) (by decide) (by decide)

/-- Helper for C8: every `__init__` run that ends with a ready instance
has attempted the spawn and has successfully resolved an executable. -/
theorem initHand_no_attach (gp : Option String) (pe : String → Bool)
    (ab : String → String) (dir : String) (sOk : Bool) (oc : ℕ → Bool)
    (st : HandState)
    (h : (initHand gp pe ab dir sOk oc).res = InitRes.ready st) :
    (initHand gp pe ab dir sOk oc).spawnAttempted = true ∧
      ∃ p, resolveGrasp gp pe ab dir = Except.ok p := by
  cases hr : resolveGrasp gp pe ab dir with
  | error e => simp [initHand, hr] at h
  | ok p =>
    refine ⟨?_, ⟨p, rfl⟩⟩
    cases sOk with
    | false => simp [initHand, hr] at h
    | true =>
      cases hc : connect oc with
      | connected a s => simp [initHand, hr, hc]
      | exited a s c code => simp [initHand, hr, hc] at h

/-- C8 counterexample: the claim's attach mode does not exist in the
code — there is no construction whatsoever that reaches a ready instance
without spawning the child process (lines 13-54 always run
`start_grasp`). -/
theorem no_attach_mode_counterexample :
    ¬ ∃ (gp : Option String) (pe : String → Bool) (ab : String → String)
        (dir : String) (sOk : Bool) (oc : ℕ → Bool) (st : HandState),
      (initHand gp pe ab dir sOk oc).res = InitRes.ready st ∧
        (initHand gp pe ab dir sOk oc).spawnAttempted = false := by
  rintro ⟨gp, pe, ab, dir, sOk, oc, st, h1, h2⟩
  have h3 := (initHand_no_attach gp pe ab dir sOk oc st h1).1
  rw [h3] at h2
  cases h2

/-- C8 amended: with an already-connected state (however obtained) and a
server that replies `OK\n`, `set_joint_positions` on the 16-element zero
vector returns `True` and writes exactly the claimed wire bytes. -/
theorem attach_mode_amended :
    set_joint_positions ⟨some 0, some 0⟩ (SendRecv.reply (("OK\n").toList))
      (List.replicate 16 0) =
    ⟨Except.ok true, ⟨some 0, some 0⟩,
      [("SET_JOINTS 0.000000 0.000000 0.000000 0.000000 0.000000 0.000000 0.000000 0.000000 0.000000 0.000000 0.000000 0.000000 0.000000 0.000000 0.000000 0.000000\n").toList],
      []⟩ := by
  rfl

end AllegroHand
